import Mathlib

/-!
Verification of the sandboxed execution orchestrator
(`app/tool/sandbox_python_execute.py`, class `SandboxPythonExecute`).

The orchestrator is embedded shallowly: the Sandbox Provider
(`SANDBOX_CLIENT`) is an external collaborator whose outcomes are supplied
by an oracle, and each `execute` call is a pure function from the request,
the orchestrator state (`SANDBOX_CLIENT.sandbox` presence plus the
`_installed_packages` tracking list) and the oracle to the returned
`ToolResult`, the post-state, and the trace of Provider calls issued.
Python exceptions are modelled with `Except`: the body of the `try` block
is `executeBody`, whose `.error` outcomes are the raw faults that the
outer `except` handler of `execute` converts to results, with the
`finally` teardown applied afterwards.
-/

namespace SandboxExec

/-- Modelled from the spec: the Sandbox Provider's fault types are not part
of the core source; §6 gives `ProvisioningError` for `ensureReady`,
`FilesystemError` for `writeFile`, and `TimeoutError` (budget exceeded) or
`CommandError` (non-zero exit, carrying raw diagnostic text) for
`runCommand`. -/
inductive SandboxFault where
  | timeoutError
  | commandError (diag : String)
  | provisioningError (msg : String)
  | filesystemError (msg : String)
deriving DecidableEq

/-- Modelled from the spec: the textual report (Python `str(e)`) that the
orchestrator observes for each Provider fault. A `TimeoutError` reports
that the command exceeded its timeout budget; a `CommandError` surfaces
the raw diagnostic text. -/
def SandboxFault.toMessage : SandboxFault → String
  | .timeoutError => "TimeoutError: command execution exceeded the timeout"
  | .commandError diag => diag
  | .provisioningError msg => msg
  | .filesystemError msg => msg

/-- Outcome of one Provider operation: a value, or a raised fault. -/
inductive Outcome (α : Type) where
  | ok (value : α)
  | fault (f : SandboxFault)
deriving DecidableEq

/-- One oracle per `execute` call: what each Provider call site would
return if reached (environment creation, the batched pip install, the
file write, and the run of the code artifact). -/
structure Oracle where
  createOutcome : Outcome Unit
  installOutcome : Outcome String
  writeOutcome : Outcome Unit
  runOutcome : Outcome String

/-- The live sandbox (`SANDBOX_CLIENT.sandbox`), recording the network
posture fixed at creation time (`sandbox_config.network_enabled`). -/
structure SandboxHandle where
  networkEnabled : Bool
deriving DecidableEq

/-- Orchestrator state: the optional sandbox handle and the
`_installed_packages` tracking list of `SandboxPythonExecute`. -/
structure OrchState where
  sandbox : Option SandboxHandle
  installedPackages : List String
deriving DecidableEq

/-- Fresh state: no sandbox, nothing recorded as installed. -/
def initialState : OrchState := { sandbox := none, installedPackages := [] }

/-- Invariant tying the tracker to the handle: with no live sandbox the
tracking list is empty (holds of `initialState` and is preserved). -/
def OrchState.wf (st : OrchState) : Prop :=
  st.sandbox = none → st.installedPackages = []

/-- The keyword arguments of `SandboxPythonExecute.execute`. -/
structure ExecRequest where
  code : String
  timeout : Nat := 30
  install_packages : String := ""
  allow_network : Bool := false
  auto_terminate : Bool := false

/-- The `ToolResult` returned by `execute`: an `output` text and an
optional `error` text (the spec's ExecutionResult; `succeeded` is the
absence of an error). -/
structure ToolResult where
  output : String
  error : Option String := none
deriving DecidableEq

/-- The spec's ExecutionResult.succeeded: no error recorded. -/
def ToolResult.succeeded (r : ToolResult) : Bool := r.error.isNone

/-- One Provider call as observed at the Provider boundary. -/
inductive ProvEvent where
  | createEnv (networkEnabled : Bool)
  | runCmd (command : String) (timeoutSeconds : Nat)
  | writeFile (path : String) (content : String)
  | cleanup
deriving DecidableEq

/-- Whether `needle` occurs as a contiguous run of `l` (substring test on
character lists; empty needle always occurs, as in Python). -/
def containsSub (needle : List Char) : List Char → Bool
  | [] => needle.isEmpty
  | a :: as => needle.isPrefixOf (a :: as) || containsSub needle as

/-- Python's substring test `needle in haystack`. -/
def pyContains (haystack needle : String) : Bool :=
  containsSub needle.data haystack.data

/-- Python's `str.lower()` (ASCII case folding). -/
def pyLower (s : String) : String := ⟨s.data.map Char.toLower⟩

/-- Split a character list at every occurrence of the character `c`
(Python's `str.split(",")`: pieces may be empty). -/
def splitChar (c : Char) : List Char → List (List Char)
  | [] => [[]]
  | a :: as =>
    match splitChar c as with
    | [] => if a == c then [[], []] else [[a]]
    | h :: t => if a == c then [] :: h :: t else (a :: h) :: t

/-- Drop leading whitespace characters. -/
def dropLeadingWs : List Char → List Char
  | [] => []
  | a :: as => if a.isWhitespace then dropLeadingWs as else a :: as

/-- Python's `str.strip()`: remove leading and trailing whitespace. -/
def pyStrip (s : String) : String :=
  ⟨((dropLeadingWs (dropLeadingWs s.data).reverse)).reverse⟩

/-- Source: `packages = [pkg.strip() for pkg in install_packages.split(",") if pkg.strip()]` -/
def parsePackages (install_packages : String) : List String :=
  (((splitChar ',' install_packages.data).map fun l => pyStrip ⟨l⟩).filter
    (fun p => p != ""))

/-- Source: `packages_to_install = [pkg for pkg in packages if pkg not in self._installed_packages]` -/
def packagesToInstall (installed : List String) (install_packages : String) :
    List String :=
  (parsePackages install_packages).filter (fun p => !(installed.contains p))

/-- The fixed artifact path `script_filename = "execution_script.py"`. -/
def script_filename : String := "execution_script.py"

/-- The result returned when the install command raises
(the spec's `DependencyInstallFailed` kind). -/
def installErrorResult (msg : String) : ToolResult :=
  { output := "Error installing packages: " ++ msg ++
      "\nExecution terminated. Please check package names or try increasing timeout.\nPlease use the terminate tool to end the session.",
    error := some msg }

/-- The success result: `output_message` composed after a successful run. -/
def successResult (out : String) (timeout : Nat) (allow_network : Bool) :
    ToolResult :=
  { output :=
      "Code execution completed successfully! Output:\n\n" ++ out ++
      "\n\nExecution environment: Docker sandbox (Python)\n" ++
      "Timeout setting: " ++ toString timeout ++ " seconds\n" ++
      "Network access: " ++ (if allow_network then "Enabled" else "Disabled") ++ "\n" ++
      "\nTask completed. To execute other code, please send a new request; if no further tasks, use the terminate tool to end the session.",
    error := none }

/-- The result of the `"timeout" in error_msg.lower()` branch of the
exception handler (the spec's `ExecutionTimedOut` kind). -/
def timedOutResult (timeout : Nat) : ToolResult :=
  { output := "Execution timed out after " ++ toString timeout ++
      " seconds. The code might be too complex, contain infinite loops, or require more time to complete. Please modify the code or increase the timeout.\nPlease use the terminate tool to end the session.",
    error := some ("Timeout after " ++ toString timeout ++ "s") }

/-- The generic branch of the exception handler
(the spec's `ExecutionFaulted` kind). -/
def executionErrorResult (msg : String) : ToolResult :=
  { output := "Error executing code: " ++ msg ++
      "\nPlease use the terminate tool to end the session.",
    error := some msg }

/-- The `except Exception as e` handler of `execute`: classify by whether
the lowercased message contains the substring `"timeout"`. -/
def handleException (timeout : Nat) (f : SandboxFault) : ToolResult :=
  let error_msg := f.toMessage
  if pyContains (pyLower error_msg) "timeout" then timedOutResult timeout
  else executionErrorResult error_msg

/-- Source: the batched install command string built by `execute`. -/
def installCmd (packages_to_install : List String) : String :=
  "pip install " ++ String.intercalate " " packages_to_install ++ " --no-cache-dir"

/-- Dependency-installation step of the `try` block. Returns an early
result (the inner `except` around the install converts a fault to a
`return`), the updated state, and the Provider calls issued. -/
def installPhase (req : ExecRequest) (st : OrchState) (o : Oracle) :
    Option ToolResult × OrchState × List ProvEvent :=
  if req.install_packages ≠ "" then
    if packagesToInstall st.installedPackages req.install_packages ≠ [] then
      match o.installOutcome with
      | .ok _ =>
          (none,
           { st with installedPackages := st.installedPackages ++
               packagesToInstall st.installedPackages req.install_packages },
           [ProvEvent.runCmd
             (installCmd (packagesToInstall st.installedPackages
               req.install_packages)) 120])
      | .fault f =>
          (some (installErrorResult f.toMessage), st,
           [ProvEvent.runCmd
             (installCmd (packagesToInstall st.installedPackages
               req.install_packages)) 120])
    else (none, st, [])
  else (none, st, [])

/-- Write of the artifact then the bounded run, composing the success
message; a raised Provider fault is surfaced as `.error`. -/
def runPhase (req : ExecRequest) (o : Oracle) :
    Except SandboxFault ToolResult × List ProvEvent :=
  match o.writeOutcome with
  | .fault f => (.error f, [ProvEvent.writeFile script_filename req.code])
  | .ok _ =>
    match o.runOutcome with
    | .fault f =>
        (.error f,
         [ProvEvent.writeFile script_filename req.code,
          ProvEvent.runCmd ("python " ++ script_filename) req.timeout])
    | .ok result =>
        (.ok (successResult result req.timeout req.allow_network),
         [ProvEvent.writeFile script_filename req.code,
          ProvEvent.runCmd ("python " ++ script_filename) req.timeout])

/-- The body of the `try` block after environment readiness. -/
def afterEnv (req : ExecRequest) (st : OrchState) (o : Oracle)
    (ev0 : List ProvEvent) :
    Except SandboxFault ToolResult × OrchState × List ProvEvent :=
  match (installPhase req st o).1 with
  | some r => (.ok r, (installPhase req st o).2.1, ev0 ++ (installPhase req st o).2.2)
  | none =>
    ((runPhase req o).1, (installPhase req st o).2.1,
     ev0 ++ (installPhase req st o).2.2 ++ (runPhase req o).2)

/-- The whole `try` block of `execute`: ensure the sandbox exists (created
lazily with `network_enabled` overridden by the request), install, write,
run. A `.error` value is a raw Python exception escaping the block. -/
def executeBody (req : ExecRequest) (st : OrchState) (o : Oracle) :
    Except SandboxFault ToolResult × OrchState × List ProvEvent :=
  match st.sandbox with
  | some _ => afterEnv req st o []
  | none =>
    match o.createOutcome with
    | .ok _ =>
        afterEnv req
          { st with sandbox := some { networkEnabled := req.allow_network } }
          o [ProvEvent.createEnv req.allow_network]
    | .fault f => (.error f, st, [ProvEvent.createEnv req.allow_network])

/-- Source `reset_sandbox`: if a sandbox exists, Provider cleanup runs and the
tracking list is cleared; otherwise nothing happens. Provider `cleanup`
is modelled from the spec as never faulting (§6: idempotent, returns
success). -/
def reset_sandbox (st : OrchState) : OrchState × List ProvEvent :=
  match st.sandbox with
  | some _ => ({ sandbox := none, installedPackages := [] }, [ProvEvent.cleanup])
  | none => (st, [])

/-- Source `execute`: run the `try` body, convert a raised fault through the
`except` handler, then run the `finally` teardown when `auto_terminate`
is set. -/
def execute (req : ExecRequest) (st : OrchState) (o : Oracle) :
    ToolResult × OrchState × List ProvEvent :=
  ((match (executeBody req st o).1 with
    | .ok r => r
    | .error f => handleException req.timeout f),
   if req.auto_terminate then
     ((reset_sandbox (executeBody req st o).2.1).1,
      (executeBody req st o).2.2 ++ (reset_sandbox (executeBody req st o).2.1).2)
   else
     ((executeBody req st o).2.1, (executeBody req st o).2.2))

/-- Trace observation: a Provider environment-creation call. -/
def isCreateEvent : ProvEvent → Bool
  | .createEnv _ => true
  | _ => false

/-- Trace observation: a batched pip install command. -/
def isInstallCmdEvent : ProvEvent → Bool
  | .runCmd c _ => "pip install ".data.isPrefixOf c.data
  | _ => false

/-- Trace observation: a run of the Python artifact. -/
def isPythonRunEvent : ProvEvent → Bool
  | .runCmd c _ => "python ".data.isPrefixOf c.data
  | _ => false

/-- Trace observation: a file write into the sandbox. -/
def isWriteEvent : ProvEvent → Bool
  | .writeFile _ _ => true
  | _ => false

/-- Number of install commands sent to the Provider in a trace. -/
def installCommandCount (tr : List ProvEvent) : Nat :=
  (tr.filter isInstallCmdEvent).length

/-- Number of environment creations (`ensureReady`) in a trace. -/
def createCount (tr : List ProvEvent) : Nat :=
  (tr.filter isCreateEvent).length

/-! ### Helper lemmas -/

lemma pipData : "pip install ".data =
    ['p', 'i', 'p', ' ', 'i', 'n', 's', 't', 'a', 'l', 'l', ' '] := rfl

lemma pythonData : "python ".data =
    ['p', 'y', 't', 'h', 'o', 'n', ' '] := rfl

lemma isInstallCmdEvent_pip (s : String) (t : Nat) :
    isInstallCmdEvent (.runCmd ("pip install " ++ s ++ " --no-cache-dir") t) = true := by
  simp [isInstallCmdEvent, String.data_append, List.isPrefixOf_iff_prefix]

lemma isInstallCmdEvent_python (t : Nat) :
    isInstallCmdEvent (.runCmd ("python " ++ script_filename) t) = false := by
  simp [isInstallCmdEvent, String.data_append, pipData, List.isPrefixOf_cons₂,
    script_filename]

lemma isPythonRunEvent_pip (s : String) (t : Nat) :
    isPythonRunEvent (.runCmd ("pip install " ++ s ++ " --no-cache-dir") t) = false := by
  simp [isPythonRunEvent, String.data_append, pythonData, pipData,
    List.isPrefixOf_cons₂]

lemma prefixed_data_ne (p s : String) (hp : p.data ≠ []) : (p ++ s).data ≠ [] := by
  rw [String.data_append]
  intro h
  exact hp (List.append_eq_nil.mp h).1

lemma prefixed_ne_empty (p s : String) (hp : p.data ≠ []) : p ++ s ≠ "" := by
  intro h
  exact prefixed_data_ne p s hp (congrArg String.data h)

lemma successResult_output_ne (out : String) (t : Nat) (an : Bool) :
    (successResult out t an).output ≠ "" := by
  apply prefixed_ne_empty
  repeat apply prefixed_data_ne
  decide

lemma installErrorResult_output_ne (m : String) :
    (installErrorResult m).output ≠ "" := by
  apply prefixed_ne_empty
  repeat apply prefixed_data_ne
  decide

lemma timedOutResult_output_ne (t : Nat) :
    (timedOutResult t).output ≠ "" := by
  apply prefixed_ne_empty
  repeat apply prefixed_data_ne
  decide

lemma executionErrorResult_output_ne (m : String) :
    (executionErrorResult m).output ≠ "" := by
  apply prefixed_ne_empty
  repeat apply prefixed_data_ne
  decide

lemma handleException_error_isSome (t : Nat) (f : SandboxFault) :
    (handleException t f).error.isSome := by
  by_cases h : pyContains (pyLower f.toMessage) "timeout"
  · simp [handleException, h, timedOutResult]
  · simp [handleException, h, executionErrorResult]

lemma handleException_output_ne (t : Nat) (f : SandboxFault) :
    (handleException t f).output ≠ "" := by
  by_cases h : pyContains (pyLower f.toMessage) "timeout"
  · simpa [handleException, h] using timedOutResult_output_ne t
  · simpa [handleException, h] using executionErrorResult_output_ne f.toMessage

lemma packagesToInstall_empty_str (inst : List String) :
    packagesToInstall inst "" = [] := rfl

lemma installPhase_skip (req : ExecRequest) (st : OrchState) (o : Oracle)
    (h : packagesToInstall st.installedPackages req.install_packages = []) :
    installPhase req st o = (none, st, []) := by
  unfold installPhase
  by_cases hip : req.install_packages = ""
  · simp [hip]
  · simp [hip, h]

lemma installPhase_ok (req : ExecRequest) (st : OrchState) (o : Oracle) (s : String)
    (h : packagesToInstall st.installedPackages req.install_packages ≠ [])
    (ho : o.installOutcome = .ok s) :
    installPhase req st o =
      (none,
       { st with installedPackages := st.installedPackages ++
           packagesToInstall st.installedPackages req.install_packages },
       [ProvEvent.runCmd
          (installCmd (packagesToInstall st.installedPackages
            req.install_packages)) 120]) := by
  have hip : req.install_packages ≠ "" := by
    intro he
    exact h (by rw [he]; exact packagesToInstall_empty_str _)
  unfold installPhase
  simp [hip, h, ho]

lemma installPhase_fault (req : ExecRequest) (st : OrchState) (o : Oracle)
    (f : SandboxFault)
    (h : packagesToInstall st.installedPackages req.install_packages ≠ [])
    (ho : o.installOutcome = .fault f) :
    installPhase req st o =
      (some (installErrorResult f.toMessage), st,
       [ProvEvent.runCmd
          (installCmd (packagesToInstall st.installedPackages
            req.install_packages)) 120]) := by
  have hip : req.install_packages ≠ "" := by
    intro he
    exact h (by rw [he]; exact packagesToInstall_empty_str _)
  unfold installPhase
  simp [hip, h, ho]

lemma installPhase_none_of_ok (req : ExecRequest) (st : OrchState) (o : Oracle)
    (s : String) (ho : o.installOutcome = .ok s) :
    (installPhase req st o).1 = none := by
  unfold installPhase
  repeat' split <;> simp_all

lemma installPhase_sandbox (req : ExecRequest) (st : OrchState) (o : Oracle) :
    (installPhase req st o).2.1.sandbox = st.sandbox := by
  unfold installPhase
  repeat' split
  all_goals rfl

lemma installPhase_installed (req : ExecRequest) (st : OrchState) (o : Oracle) :
    ∃ δ, (installPhase req st o).2.1.installedPackages =
      st.installedPackages ++ δ := by
  unfold installPhase
  repeat' split
  all_goals first
    | exact ⟨_, rfl⟩
    | exact ⟨[], by simp⟩

lemma installPhase_trace_events (req : ExecRequest) (st : OrchState) (o : Oracle) :
    ∀ e ∈ (installPhase req st o).2.2, ∃ c, e = ProvEvent.runCmd c 120 := by
  unfold installPhase
  repeat' split
  all_goals simp

lemma runPhase_trace_events (req : ExecRequest) (o : Oracle) :
    ∀ e ∈ (runPhase req o).2,
      e = ProvEvent.writeFile script_filename req.code ∨
      e = ProvEvent.runCmd ("python " ++ script_filename) req.timeout := by
  unfold runPhase
  repeat' split
  all_goals simp

lemma afterEnv_state (req : ExecRequest) (st : OrchState) (o : Oracle)
    (ev0 : List ProvEvent) :
    (afterEnv req st o ev0).2.1 = (installPhase req st o).2.1 := by
  unfold afterEnv
  split <;> rfl

lemma afterEnv_trace_events (req : ExecRequest) (st : OrchState) (o : Oracle)
    (ev0 : List ProvEvent) :
    ∀ e ∈ (afterEnv req st o ev0).2.2,
      e ∈ ev0 ∨ e ∈ (installPhase req st o).2.2 ∨ e ∈ (runPhase req o).2 := by
  unfold afterEnv
  split
  · intro e he
    simp only [List.mem_append] at he
    tauto
  · intro e he
    simp only [List.mem_append] at he
    tauto

lemma executeBody_some (req : ExecRequest) (st : OrchState) (o : Oracle)
    (cfg : SandboxHandle) (h : st.sandbox = some cfg) :
    executeBody req st o = afterEnv req st o [] := by
  simp only [executeBody, h]

lemma executeBody_none_ok (req : ExecRequest) (st : OrchState) (o : Oracle)
    (h : st.sandbox = none) (hc : o.createOutcome = .ok ()) :
    executeBody req st o =
      afterEnv req { st with sandbox := some { networkEnabled := req.allow_network } }
        o [ProvEvent.createEnv req.allow_network] := by
  simp only [executeBody, h, hc]

lemma executeBody_none_fault (req : ExecRequest) (st : OrchState) (o : Oracle)
    (f : SandboxFault) (h : st.sandbox = none) (hc : o.createOutcome = .fault f) :
    executeBody req st o =
      (.error f, st, [ProvEvent.createEnv req.allow_network]) := by
  simp only [executeBody, h, hc]

lemma executeBody_installed (req : ExecRequest) (st : OrchState) (o : Oracle) :
    ∃ δ, (executeBody req st o).2.1.installedPackages =
      st.installedPackages ++ δ := by
  rcases h : st.sandbox with _ | cfg
  · rcases hc : o.createOutcome with _ | f
    · rw [executeBody_none_ok req st o h hc, afterEnv_state]
      exact installPhase_installed req _ o
    · rw [executeBody_none_fault req st o f h hc]
      exact ⟨[], by simp⟩
  · rw [executeBody_some req st o cfg h, afterEnv_state]
    exact installPhase_installed req st o

lemma executeBody_sandbox (req : ExecRequest) (st : OrchState) (o : Oracle) :
    (executeBody req st o).2.1.sandbox = st.sandbox ∨
    (st.sandbox = none ∧
      (executeBody req st o).2.1.sandbox =
        some { networkEnabled := req.allow_network }) := by
  rcases h : st.sandbox with _ | cfg
  · rcases hc : o.createOutcome with _ | f
    · right
      refine ⟨rfl, ?_⟩
      rw [executeBody_none_ok req st o h hc, afterEnv_state, installPhase_sandbox]
    · left
      rw [executeBody_none_fault req st o f h hc, h]
  · left
    rw [executeBody_some req st o cfg h, afterEnv_state, installPhase_sandbox]
    exact h

lemma executeBody_sandbox_none (req : ExecRequest) (st : OrchState) (o : Oracle)
    (h : (executeBody req st o).2.1.sandbox = none) :
    (executeBody req st o).2.1 = st ∧ st.sandbox = none := by
  rcases hs : st.sandbox with _ | cfg
  · rcases hc : o.createOutcome with _ | f
    · exfalso
      rw [executeBody_none_ok req st o hs hc, afterEnv_state,
        installPhase_sandbox] at h
      simp at h
    · rw [executeBody_none_fault req st o f hs hc]
      exact ⟨rfl, rfl⟩
  · exfalso
    rw [executeBody_some req st o cfg hs, afterEnv_state,
      installPhase_sandbox, hs] at h
    simp at h

lemma executeBody_no_create_of_some (req : ExecRequest) (st : OrchState)
    (o : Oracle) (cfg : SandboxHandle) (h : st.sandbox = some cfg) :
    ∀ e ∈ (executeBody req st o).2.2, isCreateEvent e = false := by
  rw [executeBody_some req st o cfg h]
  intro e he
  rcases afterEnv_trace_events req st o [] e he with h0 | hi | hr
  · simp at h0
  · rcases installPhase_trace_events req st o e hi with ⟨c, rfl⟩
    rfl
  · rcases runPhase_trace_events req o e hr with rfl | rfl <;> rfl

lemma reset_noop (st : OrchState) (h : st.sandbox = none) :
    reset_sandbox st = (st, []) := by
  unfold reset_sandbox
  rw [h]

lemma reset_some (st : OrchState) (cfg : SandboxHandle)
    (h : st.sandbox = some cfg) :
    reset_sandbox st =
      ({ sandbox := none, installedPackages := [] }, [ProvEvent.cleanup]) := by
  unfold reset_sandbox
  rw [h]

lemma execute_result_of_error (req : ExecRequest) (st : OrchState) (o : Oracle)
    (f : SandboxFault) (h : (executeBody req st o).1 = .error f) :
    (execute req st o).1 = handleException req.timeout f := by
  unfold execute
  rw [h]

lemma execute_result_of_ok (req : ExecRequest) (st : OrchState) (o : Oracle)
    (r : ToolResult) (h : (executeBody req st o).1 = .ok r) :
    (execute req st o).1 = r := by
  unfold execute
  rw [h]

lemma execute_state_of_auto_false (req : ExecRequest) (st : OrchState)
    (o : Oracle) (h : req.auto_terminate = false) :
    (execute req st o).2 = ((executeBody req st o).2.1, (executeBody req st o).2.2) := by
  unfold execute
  rw [h]
  simp

lemma execute_state_of_auto_true (req : ExecRequest) (st : OrchState)
    (o : Oracle) (h : req.auto_terminate = true) :
    (execute req st o).2 =
      ((reset_sandbox (executeBody req st o).2.1).1,
       (executeBody req st o).2.2 ++ (reset_sandbox (executeBody req st o).2.1).2) := by
  unfold execute
  rw [h]
  simp

lemma installPhase_some_shape (req : ExecRequest) (st : OrchState) (o : Oracle)
    (r : ToolResult) (h : (installPhase req st o).1 = some r) :
    ∃ m, r = installErrorResult m := by
  unfold installPhase at h
  repeat' split at h
  all_goals simp_all
  exact ⟨_, h.symm⟩

lemma runPhase_ok_shape (req : ExecRequest) (o : Oracle) (r : ToolResult)
    (h : (runPhase req o).1 = .ok r) :
    ∃ out, r = successResult out req.timeout req.allow_network := by
  unfold runPhase at h
  repeat' split at h
  all_goals simp_all
  exact ⟨_, h.symm⟩

lemma afterEnv_ok (req : ExecRequest) (st : OrchState) (o : Oracle)
    (ev0 : List ProvEvent) (r : ToolResult)
    (h : (afterEnv req st o ev0).1 = .ok r) :
    (installPhase req st o).1 = some r ∨
    ((installPhase req st o).1 = none ∧ (runPhase req o).1 = .ok r) := by
  unfold afterEnv at h
  split at h
  all_goals simp_all

lemma executeBody_ok_shape (req : ExecRequest) (st : OrchState) (o : Oracle)
    (r : ToolResult) (h : (executeBody req st o).1 = .ok r) :
    (∃ out, r = successResult out req.timeout req.allow_network) ∨
    (∃ m, r = installErrorResult m) := by
  have hae : ∀ st2 ev0, (afterEnv req st2 o ev0).1 = .ok r →
      (∃ out, r = successResult out req.timeout req.allow_network) ∨
      (∃ m, r = installErrorResult m) := by
    intro st2 ev0 h2
    rcases afterEnv_ok req st2 o ev0 r h2 with hsome | ⟨-, hrun⟩
    · exact Or.inr (installPhase_some_shape req st2 o r hsome)
    · exact Or.inl (runPhase_ok_shape req o r hrun)
  rcases hs : st.sandbox with _ | cfg
  · rcases hc : o.createOutcome with _ | f
    · rw [executeBody_none_ok req st o hs hc] at h
      exact hae _ _ h
    · rw [executeBody_none_fault req st o f hs hc] at h
      simp at h
  · rw [executeBody_some req st o cfg hs] at h
    exact hae _ _ h

/-! ### Claim theorems -/

/-- C1: for every request, state and Provider behaviour, `execute` catches
any raw fault raised by the body (environment creation, package
installation, file write, command run) and converts it through the
exception handler into a failure `ToolResult` whose `error` field is set;
no raw fault propagates (`execute` is a total function into `ToolResult`),
and the returned result is well-formed: its output text is never empty. -/
theorem execute_total_catches_faults (req : ExecRequest) (st : OrchState)
    (o : Oracle) :
    (∀ f, (executeBody req st o).1 = .error f →
      (execute req st o).1 = handleException req.timeout f ∧
      ((execute req st o).1).error.isSome = true) ∧
    ((execute req st o).1).output ≠ "" := by
  constructor
  · intro f hf
    refine ⟨execute_result_of_error req st o f hf, ?_⟩
    rw [execute_result_of_error req st o f hf]
    exact handleException_error_isSome req.timeout f
  · rcases hb : (executeBody req st o).1 with f | r
    · rw [execute_result_of_error req st o f hb]
      exact handleException_output_ne req.timeout f
    · rw [execute_result_of_ok req st o r hb]
      rcases executeBody_ok_shape req st o r hb with ⟨out, rfl⟩ | ⟨m, rfl⟩
      · exact successResult_output_ne out req.timeout req.allow_network
      · exact installErrorResult_output_ne m

/-- A concrete session state with a live sandbox and nothing installed. -/
def sampleState : OrchState :=
  { sandbox := some { networkEnabled := false }, installedPackages := [] }

/-- A concrete request. -/
def sampleReq : ExecRequest := { code := "x" }

/-- A concrete Provider behaviour whose run command raises a non-timeout
fault. -/
def runFaultOracle : Oracle :=
  { createOutcome := .ok (), installOutcome := .ok "", writeOutcome := .ok (),
    runOutcome := .fault (.commandError "boom") }

/-- Witness for C1 at a concrete faulting input: a run-command fault is
converted into a failure result. -/
theorem execute_total_catches_faults_witness :
    (executeBody sampleReq sampleState runFaultOracle).1 =
      .error (.commandError "boom") ∧
    ((execute sampleReq sampleState runFaultOracle).1 =
      handleException sampleReq.timeout (.commandError "boom") ∧
      ((execute sampleReq sampleState runFaultOracle).1).error.isSome = true) :=
  ⟨rfl,
   (execute_total_catches_faults _ _ _).1 (.commandError "boom") rfl⟩

/-- C2: with `autoTerminate = true`, the teardown of the `finally` block
runs on every exit path: afterwards no sandbox handle exists, the
installed-package list is empty, a subsequent `reset_sandbox` is a no-op,
and whenever a handle existed at the end of the body the Provider cleanup
call was actually issued. -/
theorem execute_autoTerminate_teardown (req : ExecRequest) (st : OrchState)
    (o : Oracle) (hauto : req.auto_terminate = true) (hwf : st.wf) :
    ((execute req st o).2.1).sandbox = none ∧
    ((execute req st o).2.1).installedPackages = [] ∧
    reset_sandbox (execute req st o).2.1 = ((execute req st o).2.1, []) ∧
    ((∃ cfg, (executeBody req st o).2.1.sandbox = some cfg) →
      ProvEvent.cleanup ∈ (execute req st o).2.2) := by
  have hst := execute_state_of_auto_true req st o hauto
  rcases hbs : (executeBody req st o).2.1.sandbox with _ | cfg
  · obtain ⟨heq, hnone⟩ := executeBody_sandbox_none req st o hbs
    have hr := reset_noop _ hbs
    have hpost : (execute req st o).2.1 = st := by
      rw [hst, hr]
      exact heq
    refine ⟨?_, ?_, ?_, ?_⟩
    · rw [hpost]
      exact hnone
    · rw [hpost]
      exact hwf hnone
    · rw [hpost]
      exact reset_noop st hnone
    · rintro ⟨cfg, hcfg⟩
      simp at hcfg
  · have hr := reset_some _ cfg hbs
    have hpost : (execute req st o).2.1 =
        ({ sandbox := none, installedPackages := [] } : OrchState) := by
      rw [hst, hr]
    refine ⟨?_, ?_, ?_, ?_⟩
    · rw [hpost]
    · rw [hpost]
    · rw [hpost]
      exact reset_noop _ rfl
    · intro _
      have : (execute req st o).2.2 =
          (executeBody req st o).2.2 ++ [ProvEvent.cleanup] := by
        rw [hst, hr]
      rw [this]
      simp

/-- A concrete request asking for auto-termination. -/
def autoReq : ExecRequest := { code := "x", auto_terminate := true }

/-- A concrete session state with a live sandbox and one package recorded. -/
def busyState : OrchState :=
  { sandbox := some { networkEnabled := true }, installedPackages := ["numpy"] }

/-- Witness for C2 at a concrete input: auto-terminate with a faulting run
command still tears the environment down. -/
theorem execute_autoTerminate_teardown_witness :
    autoReq.auto_terminate = true ∧
    busyState.wf ∧
    ((execute autoReq busyState runFaultOracle).2.1).sandbox = none ∧
    ((execute autoReq busyState runFaultOracle).2.1).installedPackages = [] :=
  ⟨rfl, by intro h; simp [busyState] at h,
   (execute_autoTerminate_teardown _ _ _ rfl
     (by intro h; simp [busyState] at h)).1,
   (execute_autoTerminate_teardown _ _ _ rfl
     (by intro h; simp [busyState] at h)).2.1⟩


lemma create_mem_body_installed_nil (req : ExecRequest) (st : OrchState)
    (o : Oracle) (b : Bool) (hwf : st.wf)
    (h : ProvEvent.createEnv b ∈ (executeBody req st o).2.2) :
    st.installedPackages = [] := by
  rcases hs : st.sandbox with _ | cfg
  · exact hwf hs
  · exact absurd (executeBody_no_create_of_some req st o cfg hs _ h)
      (by simp [isCreateEvent])

lemma reset_trace_shape (st : OrchState) :
    (reset_sandbox st).2 = [] ∨ (reset_sandbox st).2 = [ProvEvent.cleanup] := by
  unfold reset_sandbox
  rcases st.sandbox with _ | cfg
  · exact Or.inl rfl
  · exact Or.inr rfl

lemma reset_state_props (st : OrchState) (hwf : st.wf) :
    (reset_sandbox st).1.sandbox = none ∧
    (reset_sandbox st).1.installedPackages = [] := by
  rcases hs : st.sandbox with _ | cfg
  · rw [reset_noop st hs]
    exact ⟨hs, hwf hs⟩
  · rw [reset_some st cfg hs]
    exact ⟨rfl, rfl⟩

/-- The C9 property at given inputs: the tracker evolves monotonically or
is cleared together with the handle; an empty handle implies an empty
tracker; creation only happens from an empty tracker; the tracker drops
from non-empty to empty only when the handle is destroyed; and reset
leaves no handle and an empty tracker. -/
def trackerInvariantAt (req : ExecRequest) (st : OrchState) (o : Oracle) :
    Prop :=
  ((∃ δ, ((execute req st o).2.1).installedPackages =
      st.installedPackages ++ δ) ∨
    (((execute req st o).2.1).installedPackages = [] ∧
      ((execute req st o).2.1).sandbox = none)) ∧
  (((execute req st o).2.1).sandbox = none →
    ((execute req st o).2.1).installedPackages = []) ∧
  ((∃ b, ProvEvent.createEnv b ∈ (execute req st o).2.2) →
    st.installedPackages = []) ∧
  (st.installedPackages ≠ [] →
    ((execute req st o).2.1).installedPackages = [] →
    ((execute req st o).2.1).sandbox = none) ∧
  ((reset_sandbox st).1.sandbox = none ∧
    (reset_sandbox st).1.installedPackages = [])

/-- C9: InstalledPackageSet is monotone within a session and reset
atomically with the handle: every `execute` step either appends names or
clears the tracker while destroying the handle; the tracker is empty
whenever no handle exists (so a recreated environment starts empty, and
creation only happens from an empty tracker); it becomes empty only when
the handle is destroyed; and `reset_sandbox` always yields no handle and
an empty tracker. -/
theorem installedPackages_monotone_reset_atomic (req : ExecRequest)
    (st : OrchState) (o : Oracle) (hwf : st.wf) :
    trackerInvariantAt req st o := by
  unfold trackerInvariantAt
  rcases hauto : req.auto_terminate with _ | _
  · have hst := execute_state_of_auto_false req st o hauto
    refine ⟨?_, ?_, ?_, ?_, reset_state_props st hwf⟩
    · left
      rw [hst]
      exact executeBody_installed req st o
    · intro hn
      rw [hst] at hn ⊢
      obtain ⟨heq, hnone⟩ := executeBody_sandbox_none req st o hn
      rw [heq]
      exact hwf hnone
    · rintro ⟨b, hb⟩
      rw [hst] at hb
      exact create_mem_body_installed_nil req st o b hwf hb
    · intro hne hnil
      rw [hst] at hnil ⊢
      obtain ⟨δ, hδ⟩ := executeBody_installed req st o
      rw [hδ] at hnil
      exact absurd (List.append_eq_nil.mp hnil).1 hne
  · have hst := execute_state_of_auto_true req st o hauto
    rcases hbs : (executeBody req st o).2.1.sandbox with _ | cfg
    · obtain ⟨heq, hnone⟩ := executeBody_sandbox_none req st o hbs
      have hr := reset_noop _ hbs
      have hpost : (execute req st o).2.1 = st := by
        rw [hst, hr]
        exact heq
      refine ⟨?_, ?_, ?_, ?_, reset_state_props st hwf⟩
      · left
        rw [hpost]
        exact ⟨[], by simp⟩
      · intro _
        rw [hpost]
        exact hwf hnone
      · rintro ⟨b, hb⟩
        rw [hst, hr] at hb
        simp only [List.append_nil] at hb
        exact create_mem_body_installed_nil req st o b hwf hb
      · intro hne hnil
        rw [hpost] at hnil
        exact absurd hnil hne
    · have hr := reset_some _ cfg hbs
      have hpost : (execute req st o).2.1 =
          ({ sandbox := none, installedPackages := [] } : OrchState) := by
        rw [hst, hr]
      refine ⟨?_, ?_, ?_, ?_, reset_state_props st hwf⟩
      · right
        rw [hpost]
        exact ⟨rfl, rfl⟩
      · intro _
        rw [hpost]
      · rintro ⟨b, hb⟩
        rw [hst, hr] at hb
        rcases List.mem_append.mp hb with hb1 | hb2
        · exact create_mem_body_installed_nil req st o b hwf hb1
        · simp at hb2
      · intro _ _
        rw [hpost]

/-- Witness for C9 at a concrete input. -/
theorem installedPackages_monotone_reset_atomic_witness :
    busyState.wf ∧ trackerInvariantAt sampleReq busyState runFaultOracle :=
  ⟨by intro h; simp [busyState] at h,
   installedPackages_monotone_reset_atomic sampleReq busyState runFaultOracle
     (by intro h; simp [busyState] at h)⟩


lemma afterEnv_of_skip (req : ExecRequest) (st : OrchState) (o : Oracle)
    (ev0 : List ProvEvent)
    (h : packagesToInstall st.installedPackages req.install_packages = []) :
    afterEnv req st o ev0 =
      ((runPhase req o).1, st, ev0 ++ (runPhase req o).2) := by
  unfold afterEnv
  rw [installPhase_skip req st o h]
  simp

lemma afterEnv_of_install_ok (req : ExecRequest) (st : OrchState) (o : Oracle)
    (s : String) (ev0 : List ProvEvent)
    (hne : packagesToInstall st.installedPackages req.install_packages ≠ [])
    (hio : o.installOutcome = .ok s) :
    afterEnv req st o ev0 =
      ((runPhase req o).1,
       { st with installedPackages := st.installedPackages ++
           packagesToInstall st.installedPackages req.install_packages },
       ev0 ++
         [ProvEvent.runCmd
           (installCmd (packagesToInstall st.installedPackages
             req.install_packages)) 120] ++ (runPhase req o).2) := by
  unfold afterEnv
  rw [installPhase_ok req st o s hne hio]

lemma afterEnv_of_install_fault (req : ExecRequest) (st : OrchState) (o : Oracle)
    (f : SandboxFault) (ev0 : List ProvEvent)
    (hne : packagesToInstall st.installedPackages req.install_packages ≠ [])
    (hio : o.installOutcome = .fault f) :
    afterEnv req st o ev0 =
      (.ok (installErrorResult f.toMessage), st,
       ev0 ++
         [ProvEvent.runCmd
           (installCmd (packagesToInstall st.installedPackages
             req.install_packages)) 120]) := by
  unfold afterEnv
  rw [installPhase_fault req st o f hne hio]

lemma runPhase_write_fault (req : ExecRequest) (o : Oracle) (f : SandboxFault)
    (hw : o.writeOutcome = .fault f) :
    runPhase req o = (.error f, [ProvEvent.writeFile script_filename req.code]) := by
  unfold runPhase
  rw [hw]

lemma runPhase_run_fault (req : ExecRequest) (o : Oracle) (f : SandboxFault)
    (u : Unit) (hw : o.writeOutcome = .ok u) (hr : o.runOutcome = .fault f) :
    runPhase req o =
      (.error f,
       [ProvEvent.writeFile script_filename req.code,
        ProvEvent.runCmd ("python " ++ script_filename) req.timeout]) := by
  unfold runPhase
  rw [hw, hr]

lemma runPhase_run_ok (req : ExecRequest) (o : Oracle) (u : Unit) (out : String)
    (hw : o.writeOutcome = .ok u) (hr : o.runOutcome = .ok out) :
    runPhase req o =
      (.ok (successResult out req.timeout req.allow_network),
       [ProvEvent.writeFile script_filename req.code,
        ProvEvent.runCmd ("python " ++ script_filename) req.timeout]) := by
  unfold runPhase
  rw [hw, hr]

lemma runPhase_no_install (req : ExecRequest) (o : Oracle) :
    (runPhase req o).2.filter isInstallCmdEvent = [] := by
  rw [List.filter_eq_nil_iff]
  intro e he
  rcases runPhase_trace_events req o e he with rfl | rfl
  · simp [isInstallCmdEvent]
  · simp [isInstallCmdEvent_python]

lemma runPhase_no_create (req : ExecRequest) (o : Oracle) :
    (runPhase req o).2.filter isCreateEvent = [] := by
  rw [List.filter_eq_nil_iff]
  intro e he
  rcases runPhase_trace_events req o e he with rfl | rfl <;> simp [isCreateEvent]

lemma installPhase_no_create (req : ExecRequest) (st : OrchState) (o : Oracle) :
    (installPhase req st o).2.2.filter isCreateEvent = [] := by
  rw [List.filter_eq_nil_iff]
  intro e he
  rcases installPhase_trace_events req st o e he with ⟨c, rfl⟩
  simp [isCreateEvent]

lemma packagesToInstall_after_extend (inst : List String) (ip : String) :
    packagesToInstall (inst ++ packagesToInstall inst ip) ip = [] := by
  unfold packagesToInstall
  rw [List.filter_eq_nil_iff]
  intro p hp
  simp only [Bool.not_eq_true, Bool.not_eq_true']
  rw [Bool.not_eq_false]
  have : p ∈ inst ++ (parsePackages ip).filter (fun q => !(inst.contains q)) := by
    by_cases hc : p ∈ inst
    · exact List.mem_append_left _ hc
    · refine List.mem_append_right _ ?_
      rw [List.mem_filter]
      refine ⟨hp, ?_⟩
      simp [List.contains, List.elem_eq_mem, hc]
  simpa [List.contains, List.elem_eq_mem] using this


lemma afterEnv_trace_filter_create (req : ExecRequest) (st2 : OrchState)
    (o : Oracle) (ev0 : List ProvEvent) :
    (afterEnv req st2 o ev0).2.2.filter isCreateEvent =
      ev0.filter isCreateEvent := by
  unfold afterEnv
  split
  · simp [List.filter_append, installPhase_no_create]
  · simp [List.filter_append, installPhase_no_create, runPhase_no_create]

lemma reset_no_install (s2 : OrchState) :
    (reset_sandbox s2).2.filter isInstallCmdEvent = [] := by
  rcases reset_trace_shape s2 with hr | hr <;> rw [hr] <;>
    simp [isInstallCmdEvent]

lemma reset_no_create (s2 : OrchState) :
    (reset_sandbox s2).2.filter isCreateEvent = [] := by
  rcases reset_trace_shape s2 with hr | hr <;> rw [hr] <;> simp [isCreateEvent]

lemma installCommandCount_zero (req : ExecRequest) (st : OrchState) (o : Oracle)
    (h : packagesToInstall st.installedPackages req.install_packages = []) :
    installCommandCount (execute req st o).2.2 = 0 := by
  have hbody : (executeBody req st o).2.2.filter isInstallCmdEvent = [] := by
    rcases hs : st.sandbox with _ | cfg
    · rcases hc : o.createOutcome with _ | f
      · rw [executeBody_none_ok req st o hs hc,
          afterEnv_of_skip req
            { st with sandbox := some { networkEnabled := req.allow_network } }
            o [ProvEvent.createEnv req.allow_network] h]
        simp [List.filter_append, runPhase_no_install, isInstallCmdEvent]
      · rw [executeBody_none_fault req st o f hs hc]
        simp [isInstallCmdEvent]
    · rw [executeBody_some req st o cfg hs, afterEnv_of_skip req st o [] h]
      simp [List.filter_append, runPhase_no_install]
  unfold installCommandCount
  rcases hauto : req.auto_terminate with _ | _
  · rw [execute_state_of_auto_false req st o hauto]
    simp [hbody]
  · rw [execute_state_of_auto_true req st o hauto]
    simp [List.filter_append, hbody, reset_no_install]

lemma installCommandCount_one (req : ExecRequest) (st : OrchState) (o : Oracle)
    (cfg : SandboxHandle) (s : String) (hsb : st.sandbox = some cfg)
    (hne : packagesToInstall st.installedPackages req.install_packages ≠ [])
    (hio : o.installOutcome = .ok s) (hauto : req.auto_terminate = false) :
    installCommandCount (execute req st o).2.2 = 1 := by
  rw [installCommandCount, execute_state_of_auto_false req st o hauto]
  simp only []
  rw [executeBody_some req st o cfg hsb,
    afterEnv_of_install_ok req st o s [] hne hio]
  simp [List.filter_append, runPhase_no_install, installCmd,
    isInstallCmdEvent_pip]

lemma createCount_zero_of_some (req : ExecRequest) (st : OrchState) (o : Oracle)
    (cfg : SandboxHandle) (hs : st.sandbox = some cfg) :
    createCount (execute req st o).2.2 = 0 := by
  have hbody : (executeBody req st o).2.2.filter isCreateEvent = [] := by
    rw [List.filter_eq_nil_iff]
    intro e he
    simp [executeBody_no_create_of_some req st o cfg hs e he]
  unfold createCount
  rcases hauto : req.auto_terminate with _ | _
  · rw [execute_state_of_auto_false req st o hauto]
    simp [hbody]
  · rw [execute_state_of_auto_true req st o hauto]
    simp [List.filter_append, hbody, reset_no_create]

lemma execute_sandbox_of_some (req : ExecRequest) (st : OrchState) (o : Oracle)
    (cfg : SandboxHandle) (hs : st.sandbox = some cfg)
    (hauto : req.auto_terminate = false) :
    (execute req st o).2.1.sandbox = some cfg := by
  rw [execute_state_of_auto_false req st o hauto]
  simp only []
  rw [executeBody_some req st o cfg hs, afterEnv_state, installPhase_sandbox]
  exact hs

lemma execute_post_install_ok (req : ExecRequest) (st : OrchState) (o : Oracle)
    (cfg : SandboxHandle) (s : String) (hsb : st.sandbox = some cfg)
    (hio : o.installOutcome = .ok s) (hauto : req.auto_terminate = false) :
    ((execute req st o).2.1).installedPackages =
      st.installedPackages ++
        packagesToInstall st.installedPackages req.install_packages ∧
    ((execute req st o).2.1).sandbox = some cfg := by
  refine ⟨?_, execute_sandbox_of_some req st o cfg hsb hauto⟩
  rw [execute_state_of_auto_false req st o hauto]
  simp only []
  rw [executeBody_some req st o cfg hsb, afterEnv_state]
  by_cases hne : packagesToInstall st.installedPackages req.install_packages = []
  · rw [installPhase_skip req st o hne, hne]
    simp
  · rw [installPhase_ok req st o s hne hio]

/-- C3: install is idempotent per session: starting from an environment in
which the parsed package list still has something to install, an `execute`
whose batched install succeeds sends exactly one install command; a second
`execute` with the same `install_packages` computes an empty
`packages_to_install` (the order-preserving set difference against the
tracker) and sends no install command at all. -/
theorem install_idempotent_per_session (req1 req2 : ExecRequest)
    (st : OrchState) (o1 o2 : Oracle) (cfg : SandboxHandle) (s : String)
    (hsb : st.sandbox = some cfg)
    (hsame : req2.install_packages = req1.install_packages)
    (hne : packagesToInstall st.installedPackages req1.install_packages ≠ [])
    (hio : o1.installOutcome = .ok s)
    (hauto1 : req1.auto_terminate = false) :
    installCommandCount (execute req1 st o1).2.2 = 1 ∧
    packagesToInstall ((execute req1 st o1).2.1).installedPackages
      req2.install_packages = [] ∧
    installCommandCount (execute req2 (execute req1 st o1).2.1 o2).2.2 = 0 := by
  obtain ⟨hinst, hsb1⟩ := execute_post_install_ok req1 st o1 cfg s hsb hio hauto1
  have h2 : packagesToInstall ((execute req1 st o1).2.1).installedPackages
      req2.install_packages = [] := by
    rw [hsame, hinst]
    exact packagesToInstall_after_extend _ _
  exact ⟨installCommandCount_one req1 st o1 cfg s hsb hne hio hauto1, h2,
    installCommandCount_zero req2 _ o2 h2⟩

/-- A concrete request installing two packages. -/
def installReq : ExecRequest := { code := "x", install_packages := "numpy, pandas" }

/-- A concrete Provider behaviour where every step succeeds. -/
def allOkOracle : Oracle :=
  { createOutcome := .ok (), installOutcome := .ok "installed",
    writeOutcome := .ok (), runOutcome := .ok "2\n" }

/-- Witness for C3 at a concrete input. -/
theorem install_idempotent_per_session_witness :
    sampleState.sandbox = some { networkEnabled := false } ∧
    packagesToInstall sampleState.installedPackages
      installReq.install_packages ≠ [] ∧
    (installCommandCount (execute installReq sampleState allOkOracle).2.2 = 1 ∧
     packagesToInstall
       ((execute installReq sampleState allOkOracle).2.1).installedPackages
       installReq.install_packages = [] ∧
     installCommandCount
       (execute installReq
         (execute installReq sampleState allOkOracle).2.1 allOkOracle).2.2 = 0) :=
  ⟨rfl, by decide,
   install_idempotent_per_session installReq installReq sampleState allOkOracle
     allOkOracle { networkEnabled := false } "installed" rfl rfl (by decide)
     rfl rfl⟩

/-- C8: the environment is created lazily and reused: from a fresh state,
the first call creates the environment exactly once (with the network flag
of that first request) and the second call, with no intervening reset,
performs no creation and observes the same handle. -/
theorem environment_created_lazily_reused (req1 req2 : ExecRequest)
    (st : OrchState) (o1 o2 : Oracle)
    (hs : st.sandbox = none) (hc : o1.createOutcome = .ok ())
    (hauto1 : req1.auto_terminate = false)
    (hauto2 : req2.auto_terminate = false) :
    createCount (execute req1 st o1).2.2 = 1 ∧
    ((execute req1 st o1).2.1).sandbox =
      some { networkEnabled := req1.allow_network } ∧
    createCount (execute req2 (execute req1 st o1).2.1 o2).2.2 = 0 ∧
    ((execute req2 (execute req1 st o1).2.1 o2).2.1).sandbox =
      ((execute req1 st o1).2.1).sandbox := by
  have hsb1 : ((execute req1 st o1).2.1).sandbox =
      some { networkEnabled := req1.allow_network } := by
    rw [execute_state_of_auto_false req1 st o1 hauto1]
    simp only []
    rw [executeBody_none_ok req1 st o1 hs hc, afterEnv_state,
      installPhase_sandbox]
  refine ⟨?_, hsb1, ?_, ?_⟩
  · rw [createCount, execute_state_of_auto_false req1 st o1 hauto1]
    simp only []
    rw [executeBody_none_ok req1 st o1 hs hc, afterEnv_trace_filter_create]
    simp [isCreateEvent]
  · exact createCount_zero_of_some req2 _ o2 _ hsb1
  · rw [execute_sandbox_of_some req2 _ o2 _ hsb1 hauto2, hsb1]

/-- Witness for C8 at a concrete input. -/
theorem environment_created_lazily_reused_witness :
    initialState.sandbox = none ∧
    (createCount (execute sampleReq initialState allOkOracle).2.2 = 1 ∧
     ((execute sampleReq initialState allOkOracle).2.1).sandbox =
       some { networkEnabled := sampleReq.allow_network } ∧
     createCount
       (execute sampleReq
         (execute sampleReq initialState allOkOracle).2.1 allOkOracle).2.2 = 0 ∧
     ((execute sampleReq
         (execute sampleReq initialState allOkOracle).2.1 allOkOracle).2.1).sandbox =
       ((execute sampleReq initialState allOkOracle).2.1).sandbox) :=
  ⟨rfl,
   environment_created_lazily_reused sampleReq sampleReq initialState
     allOkOracle allOkOracle rfl rfl rfl rfl⟩

/-- C10: a later fault does not roll back a completed install phase: when
the install step succeeds (or nothing needed installing) and the
subsequent file write or run command faults (without auto-terminate), the
call returns a failure result, every parsed package remains recorded in
the tracker, and a following request with the same package list sends no
install command. -/
theorem completed_install_survives_later_fault (req : ExecRequest)
    (st : OrchState) (o : Oracle) (cfg : SandboxHandle) (s : String)
    (f : SandboxFault) (hsb : st.sandbox = some cfg)
    (hio : o.installOutcome = .ok s)
    (hfault : o.writeOutcome = .fault f ∨
      (o.writeOutcome = .ok () ∧ o.runOutcome = .fault f))
    (hauto : req.auto_terminate = false) :
    ((execute req st o).1).error.isSome = true ∧
    ((execute req st o).2.1).installedPackages =
      st.installedPackages ++
        packagesToInstall st.installedPackages req.install_packages ∧
    (∀ p ∈ parsePackages req.install_packages,
      p ∈ ((execute req st o).2.1).installedPackages) ∧
    (∀ (req2 : ExecRequest) (o2 : Oracle),
      req2.install_packages = req.install_packages →
      installCommandCount (execute req2 (execute req st o).2.1 o2).2.2 = 0) := by
  obtain ⟨hinst, -⟩ := execute_post_install_ok req st o cfg s hsb hio hauto
  have hrp : (runPhase req o).1 = .error f := by
    rcases hfault with hw | ⟨hw, hr⟩
    · rw [runPhase_write_fault req o f hw]
    · rw [runPhase_run_fault req o f () hw hr]
  have hbody : (executeBody req st o).1 = .error f := by
    rw [executeBody_some req st o cfg hsb]
    unfold afterEnv
    rw [installPhase_none_of_ok req st o s hio]
    exact hrp
  refine ⟨?_, hinst, ?_, ?_⟩
  · rw [execute_result_of_error req st o f hbody]
    exact handleException_error_isSome req.timeout f
  · intro p hp
    rw [hinst]
    by_cases hcp : p ∈ st.installedPackages
    · exact List.mem_append_left _ hcp
    · refine List.mem_append_right _ ?_
      unfold packagesToInstall
      rw [List.mem_filter]
      exact ⟨hp, by simp [List.contains, List.elem_eq_mem, hcp]⟩
  · intro req2 o2 hsame
    have h2 : packagesToInstall ((execute req st o).2.1).installedPackages
        req2.install_packages = [] := by
      rw [hsame, hinst]
      exact packagesToInstall_after_extend _ _
    exact installCommandCount_zero req2 _ o2 h2

/-- A concrete Provider behaviour whose file write faults. -/
def writeFaultOracle : Oracle :=
  { createOutcome := .ok (), installOutcome := .ok "installed",
    writeOutcome := .fault (.filesystemError "disk full"),
    runOutcome := .ok "" }

/-- Witness for C10 at a concrete input. -/
theorem completed_install_survives_later_fault_witness :
    sampleState.sandbox = some { networkEnabled := false } ∧
    (((execute installReq sampleState writeFaultOracle).1).error.isSome = true ∧
     ((execute installReq sampleState writeFaultOracle).2.1).installedPackages =
       sampleState.installedPackages ++
         packagesToInstall sampleState.installedPackages
           installReq.install_packages) :=
  ⟨rfl,
   (completed_install_survives_later_fault installReq sampleState
       writeFaultOracle { networkEnabled := false } "installed"
       (.filesystemError "disk full") rfl rfl (Or.inl rfl) rfl).1,
   (completed_install_survives_later_fault installReq sampleState
       writeFaultOracle { networkEnabled := false } "installed"
       (.filesystemError "disk full") rfl rfl (Or.inl rfl) rfl).2.1⟩


/-- C4: a faulting batched install short-circuits the request: `execute`
returns the dependency-install failure result (a failure result whose
message names the install error), performs no file write and no run of the
code artifact, and leaves the whole orchestrator state, in particular the
installed-package tracker, exactly as it was. -/
theorem install_failure_short_circuits (req : ExecRequest) (st : OrchState)
    (o : Oracle) (cfg : SandboxHandle) (f : SandboxFault)
    (hsb : st.sandbox = some cfg)
    (hne : packagesToInstall st.installedPackages req.install_packages ≠ [])
    (hif : o.installOutcome = .fault f)
    (hauto : req.auto_terminate = false) :
    (execute req st o).1 = installErrorResult f.toMessage ∧
    ((execute req st o).1).succeeded = false ∧
    (execute req st o).2.1 = st ∧
    ((execute req st o).2.2).filter isWriteEvent = [] ∧
    ((execute req st o).2.2).filter isPythonRunEvent = [] := by
  have hbody := executeBody_some req st o cfg hsb
  have hae := afterEnv_of_install_fault req st o f [] hne hif
  have hb1 : (executeBody req st o).1 = .ok (installErrorResult f.toMessage) := by
    rw [hbody, hae]
  refine ⟨execute_result_of_ok req st o _ hb1, ?_, ?_, ?_, ?_⟩
  · rw [execute_result_of_ok req st o _ hb1]
    rfl
  · rw [execute_state_of_auto_false req st o hauto]
    simp only []
    rw [hbody, hae]
  · rw [execute_state_of_auto_false req st o hauto]
    simp only []
    rw [hbody, hae]
    simp [isWriteEvent]
  · rw [execute_state_of_auto_false req st o hauto]
    simp only []
    rw [hbody, hae]
    simp [installCmd, isPythonRunEvent_pip]

/-- A concrete Provider behaviour whose install command faults. -/
def installFaultOracle : Oracle :=
  { createOutcome := .ok (), installOutcome := .fault (.commandError "pip exploded"),
    writeOutcome := .ok (), runOutcome := .ok "" }

/-- Witness for C4 at a concrete input. -/
theorem install_failure_short_circuits_witness :
    packagesToInstall sampleState.installedPackages
      installReq.install_packages ≠ [] ∧
    ((execute installReq sampleState installFaultOracle).1 =
      installErrorResult (SandboxFault.commandError "pip exploded").toMessage ∧
     ((execute installReq sampleState installFaultOracle).1).succeeded = false ∧
     (execute installReq sampleState installFaultOracle).2.1 = sampleState ∧
     ((execute installReq sampleState installFaultOracle).2.2).filter
       isWriteEvent = [] ∧
     ((execute installReq sampleState installFaultOracle).2.2).filter
       isPythonRunEvent = []) :=
  ⟨by decide,
   install_failure_short_circuits installReq sampleState installFaultOracle
     { networkEnabled := false } (.commandError "pip exploded") rfl (by decide)
     rfl rfl⟩

lemma exists_embed (X B B1 L B2 : String) (hB : B = (B1 ++ L) ++ B2) :
    ∃ a b, X ++ B = (a ++ L) ++ b := by
  refine ⟨X ++ B1, B2, ?_⟩
  rw [hB, ← String.append_assoc, ← String.append_assoc]

set_option maxRecDepth 32768 in
/-- C5: a run command for which the Provider reports a deadline fault
yields the timed-out failure result: `succeeded` is false, the message
states the timeout value used, suggests the code may loop or be too slow
("contain infinite loops"), and recommends raising the timeout
("increase the timeout"). -/
theorem timeout_fault_classified_timedOut (req : ExecRequest) (st : OrchState)
    (o : Oracle) (cfg : SandboxHandle) (s : String)
    (hsb : st.sandbox = some cfg) (hio : o.installOutcome = .ok s)
    (hw : o.writeOutcome = .ok ()) (hr : o.runOutcome = .fault .timeoutError) :
    (execute req st o).1 = timedOutResult req.timeout ∧
    ((execute req st o).1).succeeded = false ∧
    (∃ a b, ((execute req st o).1).output = a ++ toString req.timeout ++ b) ∧
    (∃ a b, ((execute req st o).1).output = a ++ "contain infinite loops" ++ b) ∧
    (∃ a b, ((execute req st o).1).output = a ++ "increase the timeout" ++ b) := by
  have hbody : (executeBody req st o).1 = .error .timeoutError := by
    rw [executeBody_some req st o cfg hsb]
    unfold afterEnv
    rw [installPhase_none_of_ok req st o s hio,
      runPhase_run_fault req o _ () hw hr]
  have hcond : pyContains (pyLower SandboxFault.timeoutError.toMessage)
      "timeout" = true := by decide
  have hres : (execute req st o).1 = timedOutResult req.timeout := by
    rw [execute_result_of_error req st o _ hbody]
    simp [handleException, hcond]
  refine ⟨hres, ?_, ?_, ?_, ?_⟩
  · rw [hres]
    rfl
  · rw [hres]
    exact ⟨"Execution timed out after ",
      " seconds. The code might be too complex, contain infinite loops, or require more time to complete. Please modify the code or increase the timeout.\nPlease use the terminate tool to end the session.",
      rfl⟩
  · rw [hres]
    simp only [timedOutResult]
    exact exists_embed _ _ " seconds. The code might be too complex, "
      "contain infinite loops"
      ", or require more time to complete. Please modify the code or increase the timeout.\nPlease use the terminate tool to end the session."
      (by decide)
  · rw [hres]
    simp only [timedOutResult]
    exact exists_embed _ _
      " seconds. The code might be too complex, contain infinite loops, or require more time to complete. Please modify the code or "
      "increase the timeout"
      ".\nPlease use the terminate tool to end the session."
      (by decide)

/-- A concrete Provider behaviour whose run command hits the deadline. -/
def timeoutOracle : Oracle :=
  { createOutcome := .ok (), installOutcome := .ok "", writeOutcome := .ok (),
    runOutcome := .fault .timeoutError }

/-- Witness for C5 at a concrete input. -/
theorem timeout_fault_classified_timedOut_witness :
    timeoutOracle.runOutcome = .fault .timeoutError ∧
    ((execute sampleReq sampleState timeoutOracle).1 =
      timedOutResult sampleReq.timeout ∧
     ((execute sampleReq sampleState timeoutOracle).1).succeeded = false) :=
  ⟨rfl,
   (timeout_fault_classified_timedOut sampleReq sampleState timeoutOracle
       { networkEnabled := false } "" rfl rfl rfl rfl).1,
   (timeout_fault_classified_timedOut sampleReq sampleState timeoutOracle
       { networkEnabled := false } "" rfl rfl rfl rfl).2.1⟩

/-- A concrete Provider behaviour whose run command raises a non-deadline
command fault whose diagnostic text happens to contain "timeout". -/
def miscOracle : Oracle :=
  { createOutcome := .ok (), installOutcome := .ok "", writeOutcome := .ok (),
    runOutcome := .fault (.commandError "ValueError: socket timeout") }

set_option maxRecDepth 16384 in
/-- Counterexample to C6: a run-command fault that is a `CommandError`
(not a deadline fault) but whose diagnostic text contains the word
"timeout" is classified as the timed-out result, not as the generic
execution-error result: classification is by message text, not by where
the fault originates. -/
theorem error_classification_by_text_counterexample :
    miscOracle.runOutcome = .fault (.commandError "ValueError: socket timeout") ∧
    (execute sampleReq sampleState miscOracle).1 = timedOutResult 30 ∧
    (execute sampleReq sampleState miscOracle).1 ≠
      executionErrorResult "ValueError: socket timeout" :=
  ⟨rfl, by decide, by decide⟩

/-- C6 (amended): classification of a run-command fault is decided by its
message text: when the lowercased report does not contain "timeout",
`execute` returns the generic execution-error failure embedding the raw
diagnostic text; when it does, the timed-out result is returned
regardless of the fault's origin. -/
theorem run_fault_without_timeout_text_faulted (req : ExecRequest)
    (st : OrchState) (o : Oracle) (cfg : SandboxHandle) (s : String)
    (f : SandboxFault) (hsb : st.sandbox = some cfg)
    (hio : o.installOutcome = .ok s) (hw : o.writeOutcome = .ok ())
    (hr : o.runOutcome = .fault f)
    (hmsg : pyContains (pyLower f.toMessage) "timeout" = false) :
    (execute req st o).1 = executionErrorResult f.toMessage ∧
    ((execute req st o).1).succeeded = false ∧
    (∃ a b, ((execute req st o).1).output = a ++ f.toMessage ++ b) := by
  have hbody : (executeBody req st o).1 = .error f := by
    rw [executeBody_some req st o cfg hsb]
    unfold afterEnv
    rw [installPhase_none_of_ok req st o s hio,
      runPhase_run_fault req o f () hw hr]
  have hres : (execute req st o).1 = executionErrorResult f.toMessage := by
    rw [execute_result_of_error req st o f hbody]
    simp [handleException, hmsg]
  refine ⟨hres, ?_, ?_⟩
  · rw [hres]
    rfl
  · rw [hres]
    exact ⟨"Error executing code: ",
      "\nPlease use the terminate tool to end the session.", rfl⟩

/-- Witness for the amended C6 at a concrete input. -/
theorem run_fault_without_timeout_text_faulted_witness :
    pyContains (pyLower (SandboxFault.commandError "boom").toMessage)
      "timeout" = false ∧
    ((execute sampleReq sampleState runFaultOracle).1 =
      executionErrorResult "boom" ∧
     ((execute sampleReq sampleState runFaultOracle).1).succeeded = false) :=
  ⟨by decide,
   (run_fault_without_timeout_text_faulted sampleReq sampleState runFaultOracle
       { networkEnabled := false } "" (.commandError "boom") rfl rfl rfl rfl
       (by decide)).1,
   (run_fault_without_timeout_text_faulted sampleReq sampleState runFaultOracle
       { networkEnabled := false } "" (.commandError "boom") rfl rfl rfl rfl
       (by decide)).2.1⟩


/-- First request of the network-posture scenario: network disallowed. -/
def netReq1 : ExecRequest := { code := "x", allow_network := false }

/-- Second request of the network-posture scenario: network requested. -/
def netReq2 : ExecRequest := { code := "x", allow_network := true }

set_option maxRecDepth 65536 in
set_option maxHeartbeats 2000000 in
/-- Counterexample to C7: in a session whose environment was created with
network disabled (posture frozen to `false`), a second successful request
with `allow_network = true` gets a message announcing
"Network access: Enabled" — the message embeds the current request's flag,
not the resolved network posture of the environment, which is still
disabled. -/
theorem message_network_flag_counterexample :
    ((execute netReq1 initialState allOkOracle).2.1).sandbox =
      some { networkEnabled := false } ∧
    ((execute netReq2 (execute netReq1 initialState allOkOracle).2.1
        allOkOracle).2.1).sandbox = some { networkEnabled := false } ∧
    ((execute netReq2 (execute netReq1 initialState allOkOracle).2.1
        allOkOracle).1).succeeded = true ∧
    pyContains ((execute netReq2 (execute netReq1 initialState allOkOracle).2.1
        allOkOracle).1).output "Network access: Enabled" = true ∧
    pyContains ((execute netReq2 (execute netReq1 initialState allOkOracle).2.1
        allOkOracle).1).output "Network access: Disabled" = false :=
  ⟨by decide, by decide, by decide, by decide, by decide⟩

/-- C7 (amended): for every successful execution, the composed message
embeds the captured output, the timeout value used, and the network label
derived from the current request's `allow_network` flag ("Enabled" or
"Disabled") — which, under posture freeze, may differ from the
environment's resolved posture. -/
theorem success_message_embeds_request_fields (req : ExecRequest)
    (st : OrchState) (o : Oracle) (cfg : SandboxHandle) (s out : String)
    (hsb : st.sandbox = some cfg) (hio : o.installOutcome = .ok s)
    (hw : o.writeOutcome = .ok ()) (hr : o.runOutcome = .ok out) :
    (execute req st o).1 = successResult out req.timeout req.allow_network ∧
    (∃ a b, ((execute req st o).1).output = a ++ out ++ b) ∧
    (∃ a b, ((execute req st o).1).output = a ++ toString req.timeout ++ b) ∧
    (∃ a b, ((execute req st o).1).output =
      a ++ (if req.allow_network then "Enabled" else "Disabled") ++ b) := by
  have hbody : (executeBody req st o).1 =
      .ok (successResult out req.timeout req.allow_network) := by
    rw [executeBody_some req st o cfg hsb]
    unfold afterEnv
    rw [installPhase_none_of_ok req st o s hio,
      runPhase_run_ok req o () out hw hr]
  have hres := execute_result_of_ok req st o _ hbody
  refine ⟨hres, ?_, ?_, ?_⟩
  · rw [hres]
    refine ⟨"Code execution completed successfully! Output:\n\n",
      "\n\nExecution environment: Docker sandbox (Python)\n" ++
        "Timeout setting: " ++ toString req.timeout ++ " seconds\n" ++
        "Network access: " ++
        (if req.allow_network then "Enabled" else "Disabled") ++ "\n" ++
        "\nTask completed. To execute other code, please send a new request; if no further tasks, use the terminate tool to end the session.", ?_⟩
    simp only [successResult, String.append_assoc]
  · rw [hres]
    refine ⟨"Code execution completed successfully! Output:\n\n" ++ out ++
      "\n\nExecution environment: Docker sandbox (Python)\n" ++
      "Timeout setting: ",
      " seconds\n" ++ "Network access: " ++
        (if req.allow_network then "Enabled" else "Disabled") ++ "\n" ++
        "\nTask completed. To execute other code, please send a new request; if no further tasks, use the terminate tool to end the session.", ?_⟩
    simp only [successResult, String.append_assoc]
  · rw [hres]
    refine ⟨"Code execution completed successfully! Output:\n\n" ++ out ++
      "\n\nExecution environment: Docker sandbox (Python)\n" ++
      "Timeout setting: " ++ toString req.timeout ++ " seconds\n" ++
      "Network access: ",
      "\n" ++
        "\nTask completed. To execute other code, please send a new request; if no further tasks, use the terminate tool to end the session.", ?_⟩
    simp only [successResult, String.append_assoc]

/-- Witness for the amended C7 at a concrete input. -/
theorem success_message_embeds_request_fields_witness :
    sampleState.sandbox = some { networkEnabled := false } ∧
    (execute sampleReq sampleState allOkOracle).1 =
      successResult "2\n" sampleReq.timeout sampleReq.allow_network :=
  ⟨rfl,
   (success_message_embeds_request_fields sampleReq sampleState allOkOracle
       { networkEnabled := false } "installed" "2\n" rfl rfl rfl rfl).1⟩

end SandboxExec
